import Mathlib

/-
Shallow embedding of the XRT edge `zynqaie::Aie` module (aie.cpp): the shim-DMA
buffer-descriptor (BD) lifecycle (`sync_bo`, `sync_bo_nb`, `wait_gmio`,
`submit_sync_bo`, `wait_sync_bo`) and the profiling-session manager
(`start_profiling`, `read_profiling`, `stop_profiling`).

Modelling conventions:
- The xaiengine hardware-control calls (descriptor programming, queue push,
  counter reads/resets, event routing) mutate no state of the `Aie` object;
  they are either elided or abstracted as oracle arguments (`hwGet`,
  `readings`).
- `std::queue` is a `List` whose head is the queue front; `push` appends at the
  back, `front`/`pop` act on the head.
- C++ exceptions are an explicit `err` result constructor carrying the error
  tag and the object state at the throw point (all modelled throws happen
  before, or after unwinding, any mutation of the object).
- The busy-wait loop that polls `XAie_DmaGetPendingBdCount` is driven by an
  oracle list `readings` of successive hardware pending counts; exhausting the
  oracle while still spinning is the `spin` outcome (the loop never exits).
- `size_t` conversions of `int` handles (as in `phdl < eventRecords.size()`)
  are modelled by reduction modulo 2^64.
-/

namespace ZynqAie

/-- Transfer direction argument of `sync_bo` (`xclBOSyncDirection`):
`XCL_BO_SYNC_BO_GMIO_TO_AIE`, `XCL_BO_SYNC_BO_AIE_TO_GMIO`, or any other
enumerator (which hits the `default:` branch of the switch). -/
inductive Dir
  | gm_to_aie
  | aie_to_gm
  | other_dir
deriving DecidableEq

/-- The distinct `xrt_core::error` throw sites of aie.cpp that the embedded
operations can reach, tagged by their diagnostic message. -/
inductive AieErr
  | notInitialized
  | gmioNotFound
  | dirMismatch
  | unknownDirection
  | sizeNotAligned
  | unknownOption
  | portNotFound
  | ambiguousPort
  | resourceExhausted
  | readOrderMismatch
deriving DecidableEq

/-- The errno-style code each throw site passes to `xrt_core::error`:
every site in aie.cpp uses `-EINVAL` (-22) except the profiling
resource-exhaustion and read-order throws, which use `-EAGAIN` (-11). -/
def errnoOf : AieErr → Int
  | AieErr.resourceExhausted => -11
  | AieErr.readOrderMismatch => -11
  | _ => -22

/-- Resource-owning module of an acquired profiling resource
(`Resources::pl_module` / `Resources::core_module`). -/
inductive RModule
  | pl_module
  | core_module
deriving DecidableEq

/-- Kind of an acquired profiling resource. -/
inductive RKind
  | performance_counter
  | stream_switch_event_port
deriving DecidableEq

/-- One shim-DMA buffer descriptor slot: its fixed hardware number `bd_num`
and the transient host-memory binding (`buf_fd`/`vaddr`/`size` of the C++
`BD`, abstracted to the bound buffer handle, `none` when unbound). -/
structure BD where
  bd_num : Nat
  buf : Option Nat
deriving DecidableEq

/-- `prepare_bd`: bind host memory of buffer `bo` into the slot (export,
DMA-buf attach, mmap). -/
def prepare_bd (bd : BD) (bo : Nat) : BD :=
  { bd with buf := some bo }

/-- `clear_bd`: release the slot's host-memory binding (munmap, detach). -/
def clear_bd (bd : BD) : BD :=
  { bd with buf := none }

/-- One logical DMA channel: the `idle_bds` and `pend_bds` queues
(head = queue front). -/
structure DmaChannel where
  idle_bds : List BD
  pend_bds : List BD
deriving DecidableEq

/-- Per-column shim DMA state: hardware max queue size and the channel map. -/
structure ShimDMA where
  maxqSize : Nat
  dma_chan : List DmaChannel
deriving DecidableEq

/-- GMIO port descriptor (fields of the metadata used by the core):
`type` 0 is GM to AIE, 1 is AIE to GM. -/
structure GmPort where
  name : String
  shim_col : Nat
  channel_number : Nat
  type : Nat
  stream_id : Nat
deriving DecidableEq

/-- PLIO port descriptor (fields of the metadata used by the core). -/
structure PlPort where
  name : String
  logical_name : String
  shim_col : Nat
  is_master : Bool
  stream_id : Nat
deriving DecidableEq

/-- Modelled from the spec: the per-module hardware resource pool of
`Resources::AIE` (whose implementation is not among the given sources).
Per the spec it hands out performance counters and stream-switch event
ports from a finite per-tile pool and takes them back on release; it is
modelled as two free lists, a request popping the front free id (failure,
reported as a negative id, when the list is empty) and a release pushing
the id back.  The requesting or releasing owner id that the real calls
carry does not affect the pool contents and is dropped. -/
structure ModulePool where
  freeEventPorts : List Nat
  freeCounters : List Nat
deriving DecidableEq

/-- Modelled from the spec: `plModule.requestStreamEventPort` — grant a free
stream-switch event port id, or a negative id when the pool is exhausted. -/
def requestStreamEventPort (p : ModulePool) : Int × ModulePool :=
  match p.freeEventPorts with
  | [] => (-1, p)
  | e :: rest => (Int.ofNat e, { p with freeEventPorts := rest })

/-- Modelled from the spec: `plModule.requestPerformanceCounter`. -/
def requestPerformanceCounter (p : ModulePool) : Int × ModulePool :=
  match p.freeCounters with
  | [] => (-1, p)
  | c :: rest => (Int.ofNat c, { p with freeCounters := rest })

/-- Modelled from the spec: `releaseStreamEventPort` returns the id to the
pool. -/
def releaseStreamEventPort (p : ModulePool) (id : Nat) : ModulePool :=
  { p with freeEventPorts := id :: p.freeEventPorts }

/-- Modelled from the spec: `releasePerformanceCounter` returns the id to the
pool. -/
def releasePerformanceCounter (p : ModulePool) (id : Nat) : ModulePool :=
  { p with freeCounters := id :: p.freeCounters }

/-- The empty pool, also the out-of-range default for pool lookups. -/
def emptyPool : ModulePool :=
  { freeEventPorts := [], freeCounters := [] }

/-- Modelled from the spec: the `Resources::AIE` pool tables — one shim-tile
`plModule` pool per column, and one `coreModule` pool per (column, row)
AIE tile. -/
structure Resources where
  shim : List ModulePool
  core : List (List ModulePool)
deriving DecidableEq

/-- `Resources::AIE::getShimTile(col)->plModule`, as a read. -/
def getShim (r : Resources) (col : Nat) : ModulePool :=
  r.shim.getD col emptyPool

/-- Write back the shim-tile pool of column `col`. -/
def setShim (r : Resources) (col : Nat) (p : ModulePool) : Resources :=
  { r with shim := r.shim.set col p }

/-- `Resources::AIE::getAIETile(col, row)->coreModule`, as a read. -/
def getCore (r : Resources) (col row : Nat) : ModulePool :=
  (r.core.getD col []).getD row emptyPool

/-- Write back the core-tile pool of tile (`col`, `row`). -/
def setCore (r : Resources) (col row : Nat) (p : ModulePool) : Resources :=
  { r with core := r.core.set col ((r.core.getD col []).set row p) }

/-- One acquired profiling resource as recorded in an event record:
location (shim tiles have row 0), owning module, kind, and numeric id. -/
structure AcquiredResource where
  col : Nat
  row : Nat
  module : RModule
  resource : RKind
  id : Nat
deriving DecidableEq

/-- One profiling session record (`EventRecord`): the requested option and
the acquired resources in acquisition order. -/
structure EventRecord where
  option : Int
  acquiredResources : List AcquiredResource
deriving DecidableEq

/-- The `Aie` object state: initialization flag (`devInst`), the immutable
port tables, the per-column shim DMA channel pools, the profiling session
list, and the hardware resource pools. -/
structure AieState where
  devInst : Bool
  gmPorts : List GmPort
  plPorts : List PlPort
  shim_dma : List ShimDMA
  eventRecords : List EventRecord
  res : Resources
deriving DecidableEq

/-- Outcome of an operation on the `Aie` object: a thrown `xrt_core::error`
(with the object state at the throw point), an unexhausted busy-wait
(the polling loop never observed what it needs under the given oracle),
or normal return with a value and the new state. -/
inductive OpResult (α : Type)
  | err : AieErr → AieState → OpResult α
  | spin : OpResult α
  | ok : α → AieState → OpResult α
deriving DecidableEq

/-- Extract the state of an `ok` or `err` outcome (dummy state on `spin`). -/
def okState : OpResult Int → AieState
  | OpResult.ok _ s => s
  | OpResult.err _ s => s
  | OpResult.spin =>
      { devInst := false, gmPorts := [], plPorts := [], shim_dma := [],
        eventRecords := [], res := { shim := [], core := [] } }

/-- Modelled from the spec: `XAIEDMA_SHIM_TXFER_LEN32_MASK`, the xaiengine
header constant (not among the given sources) giving the hardware's minimum
transfer granularity: transfer lengths are in 32-bit words, so a byte length
is aligned exactly when its two low bits are clear — the mask is 3. -/
def XAIEDMA_SHIM_TXFER_LEN32_MASK : Nat := 3

/-- Modelled from the spec: `IO_STREAM_RUNNING_EVENT_COUNT`, the single
supported profiling option (from aie_event.h, not among the given sources);
its concrete value is irrelevant to the control flow, only its equality with
the passed option and its non-negativity are used. -/
def IO_STREAM_RUNNING_EVENT_COUNT : Int := 0

/-- The alignment test of `submit_sync_bo` exactly as the C++ parses:
`size & XAIEDMA_SHIM_TXFER_LEN32_MASK != 0` groups as
`size & (XAIEDMA_SHIM_TXFER_LEN32_MASK != 0)`, i.e. `size & 1`, because
`!=` binds tighter than `&`; the submission throws when this is nonzero. -/
def size_misaligned_check (size : Nat) : Bool :=
  size &&& (if XAIEDMA_SHIM_TXFER_LEN32_MASK ≠ 0 then 1 else 0) ≠ 0

/-- One pass of the completion-reconciliation loop body of `submit_sync_bo`:
move `n` descriptors (the hardware-reported completion count) from the front
of `pend_bds` to the back of `idle_bds`, clearing each binding; the returned
list is the `bd_num`s released, in release order.  An empty `pend_bds` with
`n` still positive is unreachable in the source (the hardware never reports
more completions than pending descriptors) and drains nothing. -/
def drain_n : Nat → DmaChannel → DmaChannel × List Nat
  | 0, ch => (ch, [])
  | n + 1, ch =>
    match ch.pend_bds with
    | [] => (ch, [])
    | bd :: rest =>
      let step : DmaChannel :=
        { idle_bds := ch.idle_bds ++ [clear_bd bd], pend_bds := rest }
      let p := drain_n n step
      (p.1, bd.bd_num :: p.2)

/-- The drain loop of `wait_sync_bo`: while `pend_bds` is nonempty, clear and
move its front descriptor to `idle_bds`. -/
def drain_all_go : List BD → List BD → DmaChannel × List Nat
  | idle, [] => ({ idle_bds := idle, pend_bds := [] }, [])
  | idle, bd :: rest =>
    let p := drain_all_go (idle ++ [clear_bd bd]) rest
    (p.1, bd.bd_num :: p.2)

/-- Drain every pending descriptor of the channel back to idle, in queue
order, returning the released `bd_num`s in release order. -/
def drain_all (ch : DmaChannel) : DmaChannel × List Nat :=
  drain_all_go ch.idle_bds ch.pend_bds

/-- The busy-wait of `submit_sync_bo`: while `idle_bds` is empty, read the
hardware pending count (next oracle entry) and drain
`maxqSize - npend` completed descriptors; `none` when the oracle is exhausted
while still spinning. -/
def busy_wait (maxq : Nat) : List Nat → DmaChannel → Option (DmaChannel × List Nat)
  | readings, ch =>
    if ch.idle_bds.isEmpty then
      match readings with
      | [] => none
      | npend :: rest =>
        let p := drain_n (maxq - npend) ch
        match busy_wait maxq rest p.1 with
        | none => none
        | some q => some (q.1, p.2 ++ q.2)
    else some (ch, [])

/-- The enqueue tail of `submit_sync_bo`: pop the front idle descriptor, bind
the buffer into it (`prepare_bd`), program and push it to the hardware queue
(stateless here), and push it onto `pend_bds`.  An empty `idle_bds` is
unreachable (the busy-wait just guaranteed one idle slot). -/
def acquire_enqueue (bo : Nat) (ch : DmaChannel) : DmaChannel :=
  match ch.idle_bds with
  | [] => ch
  | bd :: rest =>
    { idle_bds := rest, pend_bds := ch.pend_bds ++ [prepare_bd bd bo] }

/-- GMIO lookup by name (`std::find_if` over `gmios`, first match). -/
def findGm (l : List GmPort) (portName : String) : Option GmPort :=
  l.find? fun it => it.name = portName

/-- PLIO lookup of `start_profiling`: by name, then (if that fails) by
logical name. -/
def findPl (l : List PlPort) (portName : String) : Option PlPort :=
  match l.find? (fun it => it.name = portName) with
  | some p => some p
  | none => l.find? fun it => it.logical_name = portName

/-- The implicit `int` to `size_t` conversion of C++ comparisons and vector
indexing: reduction modulo 2^64. -/
def size_tOfInt (i : Int) : Nat :=
  (i % (2 : Int) ^ 64).toNat

/-- `Aie::submit_sync_bo`: direction/type check, the (mis-parsed) length
alignment check, busy-wait for an idle descriptor, then bind and enqueue.
Returns the `bd_num`s drained while busy-waiting. -/
def submit_sync_bo (st : AieState) (bo : Nat) (g : GmPort) (dir : Dir)
    (size _offset : Nat) (readings : List Nat) : OpResult (List Nat) :=
  let dirErr : Option AieErr :=
    match dir with
    | Dir.gm_to_aie => if g.type ≠ 0 then some AieErr.dirMismatch else none
    | Dir.aie_to_gm => if g.type ≠ 1 then some AieErr.dirMismatch else none
    | Dir.other_dir => some AieErr.unknownDirection
  match dirErr with
  | some e => OpResult.err e st
  | none =>
    if size_misaligned_check size then OpResult.err AieErr.sizeNotAligned st
    else
      let dmap := st.shim_dma.getD g.shim_col { maxqSize := 0, dma_chan := [] }
      let ch := dmap.dma_chan.getD g.channel_number { idle_bds := [], pend_bds := [] }
      match busy_wait dmap.maxqSize readings ch with
      | none => OpResult.spin
      | some p =>
        let ch2 := acquire_enqueue bo p.1
        let dmap2 := { dmap with dma_chan := dmap.dma_chan.set g.channel_number ch2 }
        OpResult.ok p.2 { st with shim_dma := st.shim_dma.set g.shim_col dmap2 }

/-- `Aie::wait_sync_bo`: spin on `XAie_DmaWaitForDone` (a stateless hardware
poll, elided), then drain every pending descriptor of the channel back to
idle.  Returns the released `bd_num`s in release order. -/
def wait_sync_bo (st : AieState) (col chan : Nat) : AieState × List Nat :=
  let dmap := st.shim_dma.getD col { maxqSize := 0, dma_chan := [] }
  let ch := dmap.dma_chan.getD chan { idle_bds := [], pend_bds := [] }
  let p := drain_all ch
  ({ st with shim_dma :=
      st.shim_dma.set col { dmap with dma_chan := dmap.dma_chan.set chan p.1 } },
   p.2)

/-- `Aie::sync_bo` (blocking): initialization check, GMIO lookup by name,
submit, then wait for the whole channel to drain. -/
def sync_bo (st : AieState) (bo : Nat) (gmioName : String) (dir : Dir)
    (size offset : Nat) (readings : List Nat) : OpResult (List Nat) :=
  if !st.devInst then OpResult.err AieErr.notInitialized st
  else
    match findGm st.gmPorts gmioName with
    | none => OpResult.err AieErr.gmioNotFound st
    | some g =>
      match submit_sync_bo st bo g dir size offset readings with
      | OpResult.err e st1 => OpResult.err e st1
      | OpResult.spin => OpResult.spin
      | OpResult.ok rel st1 =>
        let q := wait_sync_bo st1 g.shim_col g.channel_number
        OpResult.ok (rel ++ q.2) q.1

/-- `Aie::sync_bo_nb` (non-blocking): initialization check, GMIO lookup by
name, submit only. -/
def sync_bo_nb (st : AieState) (bo : Nat) (gmioName : String) (dir : Dir)
    (size offset : Nat) (readings : List Nat) : OpResult (List Nat) :=
  if !st.devInst then OpResult.err AieErr.notInitialized st
  else
    match findGm st.gmPorts gmioName with
    | none => OpResult.err AieErr.gmioNotFound st
    | some g => submit_sync_bo st bo g dir size offset readings

/-- `Aie::wait_gmio`: initialization check, GMIO lookup by name, then drain
the port's channel. -/
def wait_gm (st : AieState) (gmioName : String) : OpResult (List Nat) :=
  if !st.devInst then OpResult.err AieErr.notInitialized st
  else
    match findGm st.gmPorts gmioName with
    | none => OpResult.err AieErr.gmioNotFound st
    | some g =>
      let q := wait_sync_bo st g.shim_col g.channel_number
      OpResult.ok q.2 q.1

/-- The resource-acquisition tail of `Aie::start_profiling`, after the port
was resolved to a shim column: request an event port then a counter from the
column's `plModule` pool under the new handle `eventRecords.size()`; on full
success program the hardware routing (stateless), append the record (counter
first, then event port) and return the handle; otherwise release whichever
resource was granted and throw `-EAGAIN`. -/
def start_prof_core (st : AieState) (opt : Int) (col : Nat) : OpResult Int :=
  let handleId := st.eventRecords.length
  let pool := getShim st.res col
  let e := requestStreamEventPort pool
  let c := requestPerformanceCounter e.2
  let eventPortId := e.1
  let counterId := c.1
  if 0 ≤ counterId ∧ 0 ≤ eventPortId then
    let record : EventRecord :=
      { option := opt,
        acquiredResources :=
          [ { col := col, row := 0, module := RModule.pl_module,
              resource := RKind.performance_counter, id := counterId.toNat },
            { col := col, row := 0, module := RModule.pl_module,
              resource := RKind.stream_switch_event_port, id := eventPortId.toNat } ] }
    OpResult.ok (Int.ofNat handleId)
      { st with res := setShim st.res col c.2,
                eventRecords := st.eventRecords ++ [record] }
  else
    let p3 := if 0 ≤ counterId then releasePerformanceCounter c.2 counterId.toNat else c.2
    let p4 := if 0 ≤ eventPortId then releaseStreamEventPort p3 eventPortId.toNat else p3
    OpResult.err AieErr.resourceExhausted { st with res := setShim st.res col p4 }

/-- `Aie::start_profiling`: initialization check, option check, resolution of
the port name against both tables (GMIO by name; PLIO by name then logical
name) — absent from both is a throw, present in both is a throw — then the
resource acquisition on the matched port's shim column.  The derived stream
mode and stream id feed only the stateless hardware routing call and are not
tracked. -/
def start_profiling (st : AieState) (opt : Int) (port1_name : String)
    (_port2_name : String) (_value : Nat) : OpResult Int :=
  if !st.devInst then OpResult.err AieErr.notInitialized st
  else if opt ≠ IO_STREAM_RUNNING_EVENT_COUNT then OpResult.err AieErr.unknownOption st
  else
    match findGm st.gmPorts port1_name, findPl st.plPorts port1_name with
    | none, none => OpResult.err AieErr.portNotFound st
    | some _, some _ => OpResult.err AieErr.ambiguousPort st
    | some g, none => start_prof_core st opt g.shim_col
    | none, some p => start_prof_core st opt p.shim_col

/-- `Aie::read_profiling`: no range check — `eventRecords[phdl]` and
`acquiredResources[0]` are unchecked `operator[]` accesses, so an
out-of-range handle (after the `size_t` conversion) or an empty resource
list is undefined behaviour, modelled as `none`.  Otherwise: if the first
recorded resource is a performance counter, return the hardware counter
value (`XAie_PerfCounterGet` writes through a `u32` pointer into the zeroed
64-bit result, hence the reduction modulo 2^32), else throw `-EAGAIN`. -/
def read_profiling (hwGet : Nat → Nat → RModule → Nat → Nat) (st : AieState)
    (phdl : Int) : Option (Except AieErr Nat) :=
  match st.eventRecords.get? (size_tOfInt phdl) with
  | none => none
  | some record =>
    match record.acquiredResources.get? 0 with
    | none => none
    | some r =>
      if r.resource = RKind.performance_counter then
        some (Except.ok (hwGet r.col r.row r.module r.id % 2 ^ 32))
      else
        some (Except.error AieErr.readOrderMismatch)

/-- The observable per-resource actions of `stop_profiling`: hardware
counter/control resets, releases back to the pools, and the stream-port
routing reset. -/
inductive StopAction
  | resetCounter (col : Nat) (module : RModule) (id : Nat)
  | releaseCounter (col : Nat) (module : RModule) (id : Nat)
  | resetStreamPort (col : Nat) (id : Nat)
  | releaseEventPort (col : Nat) (id : Nat)
deriving DecidableEq

/-- One iteration of the release loop of `stop_profiling`: a performance
counter gets its value and control reset and is released to the pl or core
pool keyed by its module; a stream-switch event port gets its routing reset
and is released only when owned by the pl module (matching the source's
conditionals). -/
def stop_release_one (st : AieState) (r : AcquiredResource) : AieState × List StopAction :=
  if r.resource = RKind.performance_counter then
    if r.module = RModule.pl_module then
      let res2 := setShim st.res r.col (releasePerformanceCounter (getShim st.res r.col) r.id)
      ({ st with res := res2 },
       [StopAction.resetCounter r.col r.module r.id,
        StopAction.releaseCounter r.col r.module r.id])
    else
      let res2 := setCore st.res r.col (r.row - 1)
        (releasePerformanceCounter (getCore st.res r.col (r.row - 1)) r.id)
      ({ st with res := res2 },
       [StopAction.resetCounter r.col r.module r.id,
        StopAction.releaseCounter r.col r.module r.id])
  else
    if r.module = RModule.pl_module then
      let res2 := setShim st.res r.col (releaseStreamEventPort (getShim st.res r.col) r.id)
      ({ st with res := res2 },
       [StopAction.resetStreamPort r.col r.id,
        StopAction.releaseEventPort r.col r.id])
    else
      (st, [StopAction.resetStreamPort r.col r.id])

/-- The release loop of `stop_profiling` over the acquired resources, in
acquisition order. -/
def stop_iter (st : AieState) : List AcquiredResource → AieState × List StopAction
  | [] => (st, [])
  | r :: rest =>
    let p := stop_release_one st r
    let q := stop_iter p.1 rest
    (q.1, p.2 ++ q.2)

/-- `Aie::stop_profiling`: guarded by `(size_t)phdl < eventRecords.size()`
and `eventRecords[phdl].option >= 0`; inside the guard it runs the release
loop.  Note the source never writes to `eventRecords[phdl]` — in particular
it never marks the option field negative. -/
def stop_profiling (st : AieState) (phdl : Int) : AieState × List StopAction :=
  match st.eventRecords.get? (size_tOfInt phdl) with
  | none => (st, [])
  | some record =>
    if 0 ≤ record.option then stop_iter st record.acquiredResources
    else (st, [])

/-- The slot identities held by a channel, idle queue first. -/
def slotIds (ch : DmaChannel) : List Nat :=
  (ch.idle_bds ++ ch.pend_bds).map BD.bd_num

/-- Writing back the element just read leaves a list unchanged. -/
theorem set_getD_self {α : Type} :
    ∀ (l : List α) (n : Nat) (d : α), n < l.length → l.set n (l.getD n d) = l := by
  intro l
  induction l with
  | nil => intro n d h; simp at h
  | cons a t ih =>
    intro n d h
    cases n with
    | zero => rfl
    | succ m =>
      have hm : m < t.length := by simpa using h
      show a :: t.set m (t.getD m d) = a :: t
      rw [ih m d hm]

/-- Characterization of `drain_n`: with at least `n` pending descriptors, it
moves exactly the first `n` of them (cleared) to the back of the idle queue
and reports their identities in queue order. -/
theorem drain_n_spec :
    ∀ (n : Nat) (ch : DmaChannel), n ≤ ch.pend_bds.length →
      (drain_n n ch).1.idle_bds = ch.idle_bds ++ (ch.pend_bds.take n).map clear_bd
    ∧ (drain_n n ch).1.pend_bds = ch.pend_bds.drop n
    ∧ (drain_n n ch).2 = (ch.pend_bds.take n).map BD.bd_num := by
  intro n
  induction n with
  | zero => intro ch _; simp [drain_n]
  | succ m ih =>
    intro ch h
    match hp : ch.pend_bds with
    | [] => rw [hp] at h; simp at h
    | bd :: rest =>
      have hr : m ≤ rest.length := by rw [hp] at h; simpa using h
      have step := ih { idle_bds := ch.idle_bds ++ [clear_bd bd], pend_bds := rest } hr
      simp only [drain_n, hp]
      refine ⟨?_, ?_, ?_⟩
      · rw [step.1]; simp
      · exact step.2.1
      · rw [step.2.2]; simp

/-- Characterization of the `wait_sync_bo` drain loop: it empties the pending
queue, appending every descriptor (cleared) to the idle queue, and reports the
identities in queue order. -/
theorem drain_all_go_spec :
    ∀ (pend idle : List BD),
      drain_all_go idle pend
        = ({ idle_bds := idle ++ pend.map clear_bd, pend_bds := [] }, pend.map BD.bd_num) := by
  intro pend
  induction pend with
  | nil => intro idle; simp [drain_all_go]
  | cons bd rest ih => intro idle; simp [drain_all_go, ih]

/-- A single release iteration of `stop_profiling` never touches the session
list. -/
theorem stop_release_one_eventRecords (st : AieState) (r : AcquiredResource) :
    (stop_release_one st r).1.eventRecords = st.eventRecords := by
  unfold stop_release_one
  split <;> split <;> rfl

/-- The release loop of `stop_profiling` never touches the session list. -/
theorem stop_iter_eventRecords :
    ∀ (rs : List AcquiredResource) (st : AieState),
      (stop_iter st rs).1.eventRecords = st.eventRecords := by
  intro rs
  induction rs with
  | nil => intro st; rfl
  | cons r rest ih =>
    intro st
    simp only [stop_iter]
    rw [ih, stop_release_one_eventRecords]

/-- `stop_profiling` never touches the session list: stopped sessions remain
recorded at their original index. -/
theorem stop_preserves_eventRecords (st : AieState) (phdl : Int) :
    (stop_profiling st phdl).1.eventRecords = st.eventRecords := by
  unfold stop_profiling
  cases h : st.eventRecords.get? (size_tOfInt phdl) with
  | none => rfl
  | some record =>
    simp only
    split
    · exact stop_iter_eventRecords _ _
    · rfl

/-- A successful `start_prof_core` returns the pre-append session count as the
handle and appends exactly one record. -/
theorem start_prof_core_ok (st : AieState) (opt : Int) (col : Nat) (h : Int) (st' : AieState)
    (hok : start_prof_core st opt col = OpResult.ok h st') :
    h = Int.ofNat st.eventRecords.length
  ∧ ∃ record, st'.eventRecords = st.eventRecords ++ [record] := by
  unfold start_prof_core at hok
  dsimp only at hok
  split at hok
  · rw [OpResult.ok.injEq] at hok
    obtain ⟨h1, h2⟩ := hok
    exact ⟨h1.symm, ⟨_, by rw [← h2]⟩⟩
  · exact absurd hok (by simp)

/-- When exactly one of the two resource requests can be granted, the
acquisition tail of `start_profiling` restores the pool and throws, leaving
the state exactly as before the attempt. -/
theorem start_prof_core_partial (st : AieState) (opt : Int) (col : Nat)
    (hcol : col < st.res.shim.length)
    (hpool : ((getShim st.res col).freeEventPorts = [] ∧ (getShim st.res col).freeCounters ≠ [])
           ∨ ((getShim st.res col).freeEventPorts ≠ [] ∧ (getShim st.res col).freeCounters = [])) :
    start_prof_core st opt col = OpResult.err AieErr.resourceExhausted st := by
  have hset : ∀ p : ModulePool, p = getShim st.res col →
      { st with res := setShim st.res col p } = st := by
    intro p hp
    have : setShim st.res col p = st.res := by
      rw [hp]
      unfold setShim getShim
      rw [set_getD_self st.res.shim col emptyPool hcol]
    rw [this]
  rcases hpool with ⟨he, hc⟩ | ⟨he, hc⟩
  · obtain ⟨c, cs, hcs⟩ := List.exists_cons_of_ne_nil hc
    rcases hG : getShim st.res col with ⟨fe, fc⟩
    rw [hG] at he hcs
    simp only at he hcs
    subst he
    subst hcs
    unfold start_prof_core
    rw [hG]
    simp only [requestStreamEventPort, requestPerformanceCounter]
    have h2 : (0 : Int) ≤ Int.ofNat c := Int.natCast_nonneg c
    have h3 : ¬((0 : Int) ≤ -1) := by decide
    have h1 : ¬(0 ≤ Int.ofNat c ∧ (0 : Int) ≤ -1) := fun hx => h3 hx.2
    rw [if_neg h1, if_neg h3, if_pos h2]
    simp only [releasePerformanceCounter, show (Int.ofNat c).toNat = c from rfl]
    rw [hset { freeEventPorts := [], freeCounters := c :: cs } hG.symm]
  · obtain ⟨e, es, hes⟩ := List.exists_cons_of_ne_nil he
    rcases hG : getShim st.res col with ⟨fe, fc⟩
    rw [hG] at hes hc
    simp only at hes hc
    subst hes
    subst hc
    unfold start_prof_core
    rw [hG]
    simp only [requestStreamEventPort, requestPerformanceCounter]
    have h2 : (0 : Int) ≤ Int.ofNat e := Int.natCast_nonneg e
    have h3 : ¬((0 : Int) ≤ -1) := by decide
    have h1 : ¬((0 : Int) ≤ -1 ∧ 0 ≤ Int.ofNat e) := fun hx => h3 hx.1
    rw [if_neg h1, if_neg h3, if_pos h2]
    simp only [releaseStreamEventPort, show (Int.ofNat e).toNat = e from rfl]
    rw [hset { freeEventPorts := e :: es, freeCounters := [] } hG.symm]

/-- A GMIO port on column 0, channel 0, direction GM to AIE. -/
def c1Gm : GmPort :=
  { name := "gmA", shim_col := 0, channel_number := 0, type := 0, stream_id := 1 }

/-- An initialized state with one GMIO port, one channel holding a single
idle descriptor, and no profiling state. -/
def c1St : AieState :=
  { devInst := true, gmPorts := [c1Gm], plPorts := [],
    shim_dma := [{ maxqSize := 4,
                   dma_chan := [{ idle_bds := [{ bd_num := 0, buf := none }],
                                  pend_bds := [] }] }],
    eventRecords := [], res := { shim := [], core := [] } }

/-- An initialized state whose single shim column has exactly one free event
port and one free counter, and a GMIO port to profile. -/
def c2St0 : AieState :=
  { devInst := true,
    gmPorts := [{ name := "gmB", shim_col := 0, channel_number := 0, type := 1, stream_id := 2 }],
    plPorts := [], shim_dma := [], eventRecords := [],
    res := { shim := [{ freeEventPorts := [5], freeCounters := [7] }], core := [] } }

/-- The state after one successful `start_profiling` on `c2St0`. -/
def c2St1 : AieState :=
  okState (start_profiling c2St0 IO_STREAM_RUNNING_EVENT_COUNT "gmB" "" 0)

/-- An initialized state with one GMIO port and nothing else. -/
def c6St : AieState :=
  { devInst := true, gmPorts := [c1Gm], plPorts := [], shim_dma := [],
    eventRecords := [], res := { shim := [], core := [] } }

/-- The state `c1St` after a submission of buffer 7 on its single channel:
the descriptor moved from idle to pending with the buffer bound. -/
def c1StAfter : AieState :=
  { c1St with
      shim_dma := [{ maxqSize := 4,
                     dma_chan := [{ idle_bds := [],
                                    pend_bds := [{ bd_num := 0, buf := some 7 }] }] }] }

/-- C1 (code bug): a transfer length that is not aligned to the 32-bit
transfer-length mask is supposed to fail with InvalidArgument before any
descriptor is acquired, but because `!=` binds tighter than `&` the check
`size & XAIEDMA_SHIM_TXFER_LEN32_MASK != 0` tests `size & 1`: the misaligned
length 2 (and any even misaligned length, e.g. 6) passes the check, and the
non-blocking submission acquires the descriptor and binds the buffer into it
instead of throwing.  Only odd lengths (e.g. 1) are rejected. -/
theorem C1_misaligned_length_not_rejected :
    2 &&& XAIEDMA_SHIM_TXFER_LEN32_MASK ≠ 0
  ∧ size_misaligned_check 2 = false
  ∧ sync_bo_nb c1St 7 "gmA" Dir.gm_to_aie 2 0 [] = OpResult.ok [] c1StAfter
  ∧ 6 &&& XAIEDMA_SHIM_TXFER_LEN32_MASK ≠ 0
  ∧ size_misaligned_check 6 = false
  ∧ size_misaligned_check 1 = true
  ∧ sync_bo_nb c1St 7 "gmA" Dir.gm_to_aie 1 0 [] = OpResult.err AieErr.sizeNotAligned c1St := by
  decide

/-- C2 (code bug): `stop_profiling` is supposed to be idempotent because stop
marks the session's option field, but the source never writes the option
field: after a successful start (handle 0) a first stop releases the
session's resources, the record's option is still the started value (0, so
still non-negative), and a second stop on the same handle re-enters the
guard, re-issues exactly the same hardware resets and pool releases, and
mutates the pool again (duplicating the freed ids). -/
theorem C2_stop_not_idempotent :
    start_profiling c2St0 IO_STREAM_RUNNING_EVENT_COUNT "gmB" "" 0 = OpResult.ok 0 c2St1
  ∧ (stop_profiling c2St1 0).2 ≠ []
  ∧ (c2St1.eventRecords.map EventRecord.option = [0]
      ∧ (stop_profiling c2St1 0).1.eventRecords.map EventRecord.option = [0])
  ∧ (stop_profiling (stop_profiling c2St1 0).1 0).2 = (stop_profiling c2St1 0).2
  ∧ (stop_profiling (stop_profiling c2St1 0).1 0).1 ≠ (stop_profiling c2St1 0).1 := by
  decide

/-- C6 (counterexample): a submission or profiling start naming an absent
port does throw, but not with an error distinct from InvalidArgument: the
thrown `xrt_core::error` carries errno code -EINVAL (-22), exactly the code
of the invalid-argument failures (direction mismatch, unknown option,
misaligned size); the not-found condition is distinguished only by the
diagnostic message. -/
theorem C6_not_found_shares_einval :
    sync_bo c6St 7 "ghost" Dir.gm_to_aie 4 0 [] = OpResult.err AieErr.gmioNotFound c6St
  ∧ start_profiling c6St IO_STREAM_RUNNING_EVENT_COUNT "ghost" "" 0
      = OpResult.err AieErr.portNotFound c6St
  ∧ errnoOf AieErr.gmioNotFound = errnoOf AieErr.dirMismatch
  ∧ errnoOf AieErr.portNotFound = errnoOf AieErr.unknownOption
  ∧ errnoOf AieErr.gmioNotFound = -22 := by
  decide

/-- C3: conservation of descriptor slots on a channel.  Each completion-drain
step of the submission busy-wait moves exactly one slot from pending to idle
(`drain_n n` moves exactly `n`), the enqueue step of a submission moves
exactly one slot from idle to pending, and both preserve the multiset of slot
identities — so `idle.length + pend.length` and the slot population are
invariant across every operation. -/
theorem C3_slot_conservation (ch : DmaChannel) (n : Nat) (bo : Nat) (bd : BD) (rest : List BD) :
    (n ≤ ch.pend_bds.length →
        (drain_n n ch).1.idle_bds.length = ch.idle_bds.length + n
      ∧ (drain_n n ch).1.pend_bds.length + n = ch.pend_bds.length
      ∧ (drain_n n ch).1.idle_bds.length + (drain_n n ch).1.pend_bds.length
          = ch.idle_bds.length + ch.pend_bds.length
      ∧ List.Perm (slotIds (drain_n n ch).1) (slotIds ch))
  ∧ (ch.idle_bds = bd :: rest →
        (acquire_enqueue bo ch).idle_bds.length + 1 = ch.idle_bds.length
      ∧ (acquire_enqueue bo ch).pend_bds.length = ch.pend_bds.length + 1
      ∧ (acquire_enqueue bo ch).idle_bds.length + (acquire_enqueue bo ch).pend_bds.length
          = ch.idle_bds.length + ch.pend_bds.length
      ∧ List.Perm (slotIds (acquire_enqueue bo ch)) (slotIds ch)) := by
  constructor
  · intro h
    obtain ⟨h1, h2, h3⟩ := drain_n_spec n ch h
    have hperm : slotIds (drain_n n ch).1 = slotIds ch := by
      unfold slotIds
      rw [h1, h2, List.append_assoc, List.map_append, List.map_append, List.map_append,
          List.map_map, show (BD.bd_num ∘ clear_bd) = BD.bd_num from rfl,
          ← List.map_append, List.take_append_drop]
    refine ⟨?_, ?_, ?_, hperm ▸ List.Perm.refl _⟩
    · rw [h1]; simp [List.length_take, Nat.min_eq_left h]
    · rw [h2]; simp [List.length_drop]; omega
    · rw [h1, h2]; simp [List.length_take, List.length_drop, Nat.min_eq_left h]; omega
  · intro h
    obtain ⟨idle, pend⟩ := ch
    simp only at h
    subst h
    refine ⟨rfl, by simp [acquire_enqueue], by simp [acquire_enqueue]; omega, ?_⟩
    unfold slotIds acquire_enqueue
    simp only [List.map_append, List.map_cons, List.cons_append]
    rw [← List.append_assoc]
    exact List.perm_append_singleton _ _

/-- C5: FIFO drainage.  The explicit wait (`wait_sync_bo` drain loop) empties
the pending queue, releasing every slot's binding in exactly the queue
(submission) order; the busy-wait drain during submission releases exactly
the first `n` pending slots in queue order; and a new submission is appended
at the back of the pending queue — so a transfer submitted earlier is always
released before a later one, on every drain path. -/
theorem C5_fifo_drain (ch : DmaChannel) (n : Nat) (bo : Nat) (bd : BD) (rest : List BD) :
    ((drain_all ch).2 = ch.pend_bds.map BD.bd_num
      ∧ (drain_all ch).1.pend_bds = []
      ∧ (drain_all ch).1.idle_bds = ch.idle_bds ++ ch.pend_bds.map clear_bd)
  ∧ (n ≤ ch.pend_bds.length → (drain_n n ch).2 = (ch.pend_bds.take n).map BD.bd_num)
  ∧ (ch.idle_bds = bd :: rest →
      (acquire_enqueue bo ch).pend_bds = ch.pend_bds ++ [prepare_bd bd bo]) := by
  refine ⟨?_, fun h => (drain_n_spec n ch h).2.2, fun h => ?_⟩
  · unfold drain_all
    rw [drain_all_go_spec]
    exact ⟨rfl, rfl, rfl⟩
  · obtain ⟨idle, pend⟩ := ch
    simp only at h
    subst h
    rfl

/-- C7: an ambiguous port name (present in both the GMIO and the PLIO table)
makes `start_profiling` throw `-EINVAL` before any resource request is
issued: the state — resource pools and session list included — is exactly
the state before the call. -/
theorem C7_ambiguous_port_name (st : AieState) (p1 p2 : String) (v : Nat)
    (g : GmPort) (p : PlPort)
    (hdev : st.devInst = true)
    (hg : findGm st.gmPorts p1 = some g)
    (hp : findPl st.plPorts p1 = some p) :
    start_profiling st IO_STREAM_RUNNING_EVENT_COUNT p1 p2 v
      = OpResult.err AieErr.ambiguousPort st
  ∧ errnoOf AieErr.ambiguousPort = -22 := by
  refine ⟨?_, rfl⟩
  unfold start_profiling
  rw [hdev, hg, hp]
  simp

/-- C4: when exactly one of the two hardware resources is available (event
port but no counter, or counter but no event port), `start_profiling`
releases the partially granted resource and throws `-EAGAIN`
(ResourceExhausted); the resulting state — pool and session list — is
exactly the state before the attempt, so nothing leaks and no half-acquired
session is recorded. -/
theorem C4_partial_acquisition_unwound (st : AieState) (p1 p2 : String) (v : Nat) (col : Nat)
    (hdev : st.devInst = true)
    (hres : (∃ g, findGm st.gmPorts p1 = some g ∧ findPl st.plPorts p1 = none ∧ col = g.shim_col)
          ∨ (findGm st.gmPorts p1 = none ∧ ∃ p, findPl st.plPorts p1 = some p ∧ col = p.shim_col))
    (hcol : col < st.res.shim.length)
    (hpool : ((getShim st.res col).freeEventPorts = [] ∧ (getShim st.res col).freeCounters ≠ [])
           ∨ ((getShim st.res col).freeEventPorts ≠ [] ∧ (getShim st.res col).freeCounters = [])) :
    start_profiling st IO_STREAM_RUNNING_EVENT_COUNT p1 p2 v
      = OpResult.err AieErr.resourceExhausted st
  ∧ errnoOf AieErr.resourceExhausted = -11 := by
  refine ⟨?_, rfl⟩
  rcases hres with ⟨g, hg, hp, hcol2⟩ | ⟨hg, p, hp, hcol2⟩
  · subst hcol2
    unfold start_profiling
    rw [hdev, hg, hp]
    simpa using start_prof_core_partial st IO_STREAM_RUNNING_EVENT_COUNT g.shim_col hcol hpool
  · subst hcol2
    unfold start_profiling
    rw [hdev, hg, hp]
    simpa using start_prof_core_partial st IO_STREAM_RUNNING_EVENT_COUNT p.shim_col hcol hpool

/-- C6 (amended): an operation naming an absent port throws before any state
change — the state at the throw point is exactly the caller's state — with
the not-found diagnostic, but the errno code of that error is -EINVAL (-22),
the same code the invalid-argument failures use, not a distinct NotFound
code. -/
theorem C6_amended_not_found (st : AieState) (portName p2 : String)
    (bo size offset v : Nat) (dir : Dir) (readings : List Nat)
    (hdev : st.devInst = true)
    (hg : findGm st.gmPorts portName = none) :
    sync_bo st bo portName dir size offset readings = OpResult.err AieErr.gmioNotFound st
  ∧ sync_bo_nb st bo portName dir size offset readings = OpResult.err AieErr.gmioNotFound st
  ∧ wait_gm st portName = OpResult.err AieErr.gmioNotFound st
  ∧ (findPl st.plPorts portName = none →
      start_profiling st IO_STREAM_RUNNING_EVENT_COUNT portName p2 v
        = OpResult.err AieErr.portNotFound st)
  ∧ errnoOf AieErr.gmioNotFound = -22
  ∧ errnoOf AieErr.portNotFound = -22 := by
  refine ⟨?_, ?_, ?_, fun hp => ?_, rfl, rfl⟩
  · unfold sync_bo; rw [hdev, hg]; simp
  · unfold sync_bo_nb; rw [hdev, hg]; simp
  · unfold wait_gm; rw [hdev, hg]; simp
  · unfold start_profiling; rw [hdev, hg, hp]; simp

/-- C8: `read_profiling` on a handle whose first recorded resource is not a
performance counter throws `-EAGAIN` and yields no value; on a handle whose
first recorded resource is a performance counter it returns the hardware
counter value (truncated to 32 bits by the `u32` out-pointer) without
error. -/
theorem C8_read_first_resource (hwGet : Nat → Nat → RModule → Nat → Nat) (st : AieState)
    (phdl : Int) (record : EventRecord) (r : AcquiredResource)
    (hrec : st.eventRecords.get? (size_tOfInt phdl) = some record)
    (hr : record.acquiredResources.get? 0 = some r) :
    (r.resource ≠ RKind.performance_counter →
        read_profiling hwGet st phdl = some (Except.error AieErr.readOrderMismatch))
  ∧ (r.resource = RKind.performance_counter →
        read_profiling hwGet st phdl
          = some (Except.ok (hwGet r.col r.row r.module r.id % 2 ^ 32))) := by
  simp only [read_profiling, hrec, hr]
  constructor
  · intro h; rw [if_neg h]
  · intro h; rw [if_pos h]

/-- C9: every successful `start_profiling` returns a handle equal to the
session list's length before the call (its insertion index) and appends
exactly one record, and `stop_profiling` never removes or moves records —
the list only grows, handles are never reused, and a stopped session's
record stays at its original index. -/
theorem C9_handle_is_insertion_index (st st' : AieState) (opt : Int) (p1 p2 : String)
    (v : Nat) (h q : Int)
    (hok : start_profiling st opt p1 p2 v = OpResult.ok h st') :
    h = Int.ofNat st.eventRecords.length
  ∧ (∃ record, st'.eventRecords = st.eventRecords ++ [record])
  ∧ (stop_profiling st' q).1.eventRecords = st'.eventRecords := by
  have main : h = Int.ofNat st.eventRecords.length
      ∧ ∃ record, st'.eventRecords = st.eventRecords ++ [record] := by
    unfold start_profiling at hok
    split at hok
    · exact absurd hok (by simp)
    · split at hok
      · exact absurd hok (by simp)
      · split at hok
        · exact absurd hok (by simp)
        · exact absurd hok (by simp)
        · exact start_prof_core_ok _ _ _ _ _ hok
        · exact start_prof_core_ok _ _ _ _ _ hok
  exact ⟨main.1, main.2, stop_preserves_eventRecords st' q⟩

/-- C10: `read_profiling` performs no range check on its handle — for any
handle whose `size_t` conversion is outside the session list (negative
handles included), the unchecked `eventRecords[phdl]` access falls outside
the embedding's error taxonomy (undefined behaviour, `none`), while
`stop_profiling` on the very same handle is a silent no-op that returns the
state unchanged and performs no release action. -/
theorem C10_read_unchecked_handle (hwGet : Nat → Nat → RModule → Nat → Nat)
    (st : AieState) (phdl : Int)
    (h : st.eventRecords.get? (size_tOfInt phdl) = none) :
    read_profiling hwGet st phdl = none
  ∧ stop_profiling st phdl = (st, []) := by
  unfold read_profiling stop_profiling
  rw [h]
  exact ⟨rfl, rfl⟩

/-- A descriptor slot with number 0, unbound. -/
def bdW0 : BD := { bd_num := 0, buf := none }

/-- A descriptor slot with number 1, bound to buffer 9. -/
def bdW1 : BD := { bd_num := 1, buf := some 9 }

/-- A channel with one idle and one pending descriptor. -/
def chW : DmaChannel := { idle_bds := [bdW0], pend_bds := [bdW1] }

/-- Witness for C3 at a concrete channel: drain one completed descriptor and
enqueue one submission, both preserving the slot population. -/
theorem C3_witness :
    ((drain_n 1 chW).1.idle_bds.length = chW.idle_bds.length + 1
      ∧ (drain_n 1 chW).1.pend_bds.length + 1 = chW.pend_bds.length
      ∧ (drain_n 1 chW).1.idle_bds.length + (drain_n 1 chW).1.pend_bds.length
          = chW.idle_bds.length + chW.pend_bds.length
      ∧ List.Perm (slotIds (drain_n 1 chW).1) (slotIds chW))
  ∧ ((acquire_enqueue 7 chW).idle_bds.length + 1 = chW.idle_bds.length
      ∧ (acquire_enqueue 7 chW).pend_bds.length = chW.pend_bds.length + 1
      ∧ (acquire_enqueue 7 chW).idle_bds.length + (acquire_enqueue 7 chW).pend_bds.length
          = chW.idle_bds.length + chW.pend_bds.length
      ∧ List.Perm (slotIds (acquire_enqueue 7 chW)) (slotIds chW)) :=
  ⟨(C3_slot_conservation chW 1 7 bdW0 []).1 (by decide),
   (C3_slot_conservation chW 1 7 bdW0 []).2 (by decide)⟩

/-- Witness for C5 at a concrete channel. -/
theorem C5_witness :
    ((drain_all chW).2 = chW.pend_bds.map BD.bd_num
      ∧ (drain_all chW).1.pend_bds = []
      ∧ (drain_all chW).1.idle_bds = chW.idle_bds ++ chW.pend_bds.map clear_bd)
  ∧ (drain_n 1 chW).2 = (chW.pend_bds.take 1).map BD.bd_num
  ∧ (acquire_enqueue 7 chW).pend_bds = chW.pend_bds ++ [prepare_bd bdW0 7] :=
  ⟨(C5_fifo_drain chW 1 7 bdW0 []).1,
   (C5_fifo_drain chW 1 7 bdW0 []).2.1 (by decide),
   (C5_fifo_drain chW 1 7 bdW0 []).2.2 (by decide)⟩

/-- A GMIO port for the C4 witness. -/
def c4Gm : GmPort :=
  { name := "gmC", shim_col := 0, channel_number := 0, type := 0, stream_id := 3 }

/-- A state whose single shim column has a free event port but no free
counter. -/
def c4St : AieState :=
  { devInst := true, gmPorts := [c4Gm], plPorts := [], shim_dma := [],
    eventRecords := [],
    res := { shim := [{ freeEventPorts := [5], freeCounters := [] }], core := [] } }

/-- Witness for C4: with only the event port available, the start attempt
throws ResourceExhausted and restores the exact pre-attempt state. -/
theorem C4_witness :
    start_profiling c4St IO_STREAM_RUNNING_EVENT_COUNT "gmC" "x" 0
      = OpResult.err AieErr.resourceExhausted c4St
  ∧ errnoOf AieErr.resourceExhausted = -11 :=
  C4_partial_acquisition_unwound c4St "gmC" "x" 0 0 rfl
    (Or.inl ⟨c4Gm, by decide, by decide, rfl⟩) (by decide)
    (Or.inr ⟨by decide, by decide⟩)

/-- Witness for C6 (amended) at a concrete state and absent port name. -/
theorem C6_amended_witness :
    sync_bo c6St 7 "ghost" Dir.aie_to_gm 8 0 [] = OpResult.err AieErr.gmioNotFound c6St
  ∧ sync_bo_nb c6St 7 "ghost" Dir.aie_to_gm 8 0 [] = OpResult.err AieErr.gmioNotFound c6St
  ∧ wait_gm c6St "ghost" = OpResult.err AieErr.gmioNotFound c6St
  ∧ start_profiling c6St IO_STREAM_RUNNING_EVENT_COUNT "ghost" "y" 1
      = OpResult.err AieErr.portNotFound c6St
  ∧ errnoOf AieErr.gmioNotFound = -22
  ∧ errnoOf AieErr.portNotFound = -22 := by
  have h := C6_amended_not_found c6St "ghost" "y" 7 8 0 1 Dir.aie_to_gm [] rfl (by decide)
  exact ⟨h.1, h.2.1, h.2.2.1, h.2.2.2.1 (by decide), h.2.2.2.2.1, h.2.2.2.2.2⟩

/-- A GMIO port named "dual" for the C7 witness. -/
def c7Gm : GmPort :=
  { name := "dual", shim_col := 0, channel_number := 0, type := 0, stream_id := 1 }

/-- A PLIO port also named "dual" for the C7 witness. -/
def c7Pl : PlPort :=
  { name := "dual", logical_name := "dl", shim_col := 1, is_master := true, stream_id := 2 }

/-- A state in which the port name "dual" is ambiguous. -/
def c7St : AieState :=
  { devInst := true, gmPorts := [c7Gm], plPorts := [c7Pl], shim_dma := [],
    eventRecords := [],
    res := { shim := [{ freeEventPorts := [4], freeCounters := [6] }], core := [] } }

/-- Witness for C7 at a concrete ambiguous state. -/
theorem C7_witness :
    start_profiling c7St IO_STREAM_RUNNING_EVENT_COUNT "dual" "" 0
      = OpResult.err AieErr.ambiguousPort c7St
  ∧ errnoOf AieErr.ambiguousPort = -22 :=
  C7_ambiguous_port_name c7St "dual" "" 0 c7Gm c7Pl rfl (by decide) (by decide)

/-- A session record whose first acquired resource is an event port. -/
def c8R0 : AcquiredResource :=
  { col := 0, row := 0, module := RModule.pl_module,
    resource := RKind.stream_switch_event_port, id := 3 }

/-- A session record whose first acquired resource is a counter. -/
def c8R1 : AcquiredResource :=
  { col := 0, row := 0, module := RModule.pl_module,
    resource := RKind.performance_counter, id := 7 }

/-- An event record starting with an event port (protocol drift). -/
def c8Rec0 : EventRecord := { option := 0, acquiredResources := [c8R0] }

/-- An event record starting with a counter (the expected layout). -/
def c8Rec1 : EventRecord := { option := 0, acquiredResources := [c8R1] }

/-- A state with one drifted and one well-formed session record. -/
def c8St : AieState :=
  { devInst := true, gmPorts := [], plPorts := [], shim_dma := [],
    eventRecords := [c8Rec0, c8Rec1], res := { shim := [], core := [] } }

/-- A concrete hardware counter-read oracle. -/
def hwW : Nat → Nat → RModule → Nat → Nat := fun _ _ _ _ => 42

/-- Witness for C8: handle 0 (event port first) throws, handle 1 (counter
first) returns the hardware value. -/
theorem C8_witness :
    read_profiling hwW c8St 0 = some (Except.error AieErr.readOrderMismatch)
  ∧ read_profiling hwW c8St 1
      = some (Except.ok (hwW c8R1.col c8R1.row c8R1.module c8R1.id % 2 ^ 32)) :=
  ⟨(C8_read_first_resource hwW c8St 0 c8Rec0 c8R0 (by decide) (by decide)).1 (by decide),
   (C8_read_first_resource hwW c8St 1 c8Rec1 c8R1 (by decide) (by decide)).2 (by decide)⟩

/-- Witness for C9: the successful start on `c2St0` returned handle 0 (the
pre-append list length), appended one record, and stop does not disturb the
list. -/
theorem C9_witness :
    (0 : Int) = Int.ofNat c2St0.eventRecords.length
  ∧ (∃ record, c2St1.eventRecords = c2St0.eventRecords ++ [record])
  ∧ (stop_profiling c2St1 3).1.eventRecords = c2St1.eventRecords :=
  C9_handle_is_insertion_index c2St0 c2St1 IO_STREAM_RUNNING_EVENT_COUNT "gmB" "" 0 0 3
    (by decide)

/-- Witness for C10 at handle -1 (whose `size_t` image is 2^64 - 1, out of
range for the empty session list): the read is undefined behaviour, the stop
is a silent no-op. -/
theorem C10_witness :
    read_profiling hwW c6St (-1) = none
  ∧ stop_profiling c6St (-1) = (c6St, []) :=
  C10_read_unchecked_handle hwW c6St (-1) (by decide)

end ZynqAie
